import Mathlib

/-!
Shallow embedding of the XDR unpack module (`packet/unpack.py`) and the RPC
decoder (`packet/application/rpc.py`) of the nfstest repository.

Byte buffers are `List Nat` (one element per byte); wire integers are `Nat`
(all the integers involved are unsigned big-endian).  Python exceptions are
modelled with `Except`: `struct.error` on a short fixed-width read is
`UErr.truncated`, the explicit "exceeds maximum length" raises are
`UErr.limitExceeded`.  Every decode operation returns its result together
with the working buffer as it stands after the call, including after a
failed call, because `rawdata` advances `self.data` before `struct.unpack`
gets a chance to raise.
-/

deriving instance DecidableEq for Except

/-- Error taxonomy of the unpack layer: `truncated` models Python's
`struct.error` on a short buffer, `limitExceeded` the explicit
"exceeds maximum length" exceptions. -/
inductive UErr where
  | truncated
  | limitExceeded
deriving DecidableEq, Repr

/-- Big-endian value of a byte list (what `struct.unpack` computes for the
formats `!B`, `!H`, `!I`, `!Q`). -/
def beVal (l : List Nat) : Nat := l.foldl (fun a b => a * 256 + b) 0

/-- `Unpack.rawdata(size, pad)` (unpack.py lines 107-121): returns
`data[0:size]` and advances the working buffer by `size` rounded up to a
multiple of `pad` when `pad > 0`.  Python slicing never fails: a buffer
shorter than `size` yields a short result and an empty remainder. -/
def rawdata (size pad : Nat) (data : List Nat) : List Nat × List Nat :=
  let buf := data.take size
  let consumed := if pad > 0 then ((size + pad - 1) / pad) * pad else size
  (buf, data.drop consumed)

/-- `Unpack.unpack(size, fmt)` (lines 123-133): `struct.unpack` applied to
`rawdata(size)`.  `struct.unpack` raises when given fewer than `size`
bytes, but by then `rawdata` has already advanced the buffer.  The raw
bytes are returned; the fixed-width readers interpret them. -/
def unpackE (size : Nat) (data : List Nat) : Except UErr (List Nat) × List Nat :=
  let r := rawdata size 0 data
  (if r.1.length = size then .ok r.1 else .error .truncated, r.2)

/-- `Unpack.unpack_uint` (lines 143-145): big-endian unsigned 32-bit. -/
def unpack_uintE (data : List Nat) : Except UErr Nat × List Nat :=
  match unpackE 4 data with
  | (.ok buf, rest) => (.ok (beVal buf), rest)
  | (.error e, rest) => (.error e, rest)

/-- `Unpack.unpack_opaqueE(maxcount)` (lines 151-156). -/
def unpack_opaqueE (maxcount : Nat) (data : List Nat) :
    Except UErr (List Nat) × List Nat :=
  match unpack_uintE data with
  | (.error e, d) => (.error e, d)
  | (.ok size, d) =>
    if maxcount > 0 ∧ size > maxcount then (.error .limitExceeded, d)
    else
      let r := rawdata size 4 d
      (.ok r.1, r.2)

/-- `Unpack.unpack_fopaqueE(size)` (lines 158-160). -/
def unpack_fopaqueE (size : Nat) (data : List Nat) :
    Except UErr (List Nat) × List Nat :=
  let r := rawdata size 4 data
  (.ok r.1, r.2)

/-- `Unpack.unpack_string` (lines 162-187) with the default uint32 length
decoder, explicit `pad` and `maxcount`. -/
def unpack_string (pad maxcount : Nat) (data : List Nat) :
    Except UErr (List Nat) × List Nat :=
  match unpack_uintE data with
  | (.error e, d) => (.error e, d)
  | (.ok slen, d) =>
    if maxcount > 0 ∧ slen > maxcount then (.error .limitExceeded, d)
    else
      let r := rawdata slen pad d
      (.ok r.1, r.2)

/-- Item loop of `Unpack.unpack_array` (lines 225-231) with the default
uint32 item decoder and `islist = False`. -/
def unpack_array_items (n : Nat) (data : List Nat) :
    Except UErr (List Nat) × List Nat :=
  match n with
  | 0 => (.ok [], data)
  | n + 1 =>
    match unpack_uintE data with
    | (.error e, d) => (.error e, d)
    | (.ok v, d) =>
      match unpack_array_items n d with
      | (.error e, d2) => (.error e, d2)
      | (.ok vs, d2) => (.ok (v :: vs), d2)

/-- `Unpack.unpack_array` (lines 189-232) with the default decoders
(uint32 items, uint32 count) as used by `rpc.py`. -/
def unpack_array_uint (maxcount : Nat) (data : List Nat) :
    Except UErr (List Nat) × List Nat :=
  match unpack_uintE data with
  | (.error e, d) => (.error e, d)
  | (.ok slen, d) =>
    if maxcount > 0 ∧ slen > maxcount then (.error .limitExceeded, d)
    else unpack_array_items slen d

/-!
## RPC layer (`packet/application/rpc.py`)
-/

/-- Modelled from the spec: the numeric RPC constants are imported by
`rpc.py` from `rpc_const`, which is not among the given sources.  The
values follow spec §4.4 (CALL=0, REPLY=1, MSG_ACCEPTED=0, MSG_DENIED=1,
PROG_MISMATCH=2, RPC_MISMATCH=0, AUTH_ERROR=1, AUTH_NONE/AUTH_SYS flavors
0 and 1) and RFC 1831/2203 for RPCSEC_GSS (6). -/
def CALL : Nat := 0

def REPLY : Nat := 1

def MSG_ACCEPTED : Nat := 0

def MSG_DENIED : Nat := 1

def PROG_MISMATCH : Nat := 2

def RPC_MISMATCH : Nat := 0

def AUTH_ERROR : Nat := 1

def AUTH_SYS : Nat := 1

def RPCSEC_GSS : Nat := 6

/-- Modelled from the spec: keys of the `reply_stat` dictionary of
`rpc_const` (RFC 1831: MSG_ACCEPTED=0, MSG_DENIED=1). -/
def reply_statKeys : List Nat := [0, 1]

/-- Modelled from the spec: keys of the `accept_stat` dictionary of
`rpc_const` (RFC 1831: SUCCESS=0 .. SYSTEM_ERR=5). -/
def accept_statKeys : List Nat := [0, 1, 2, 3, 4, 5]

/-- Modelled from the spec: keys of the `reject_stat` dictionary of
`rpc_const` (RFC 1831: RPC_MISMATCH=0, AUTH_ERROR=1). -/
def reject_statKeys : List Nat := [0, 1]

/-- Modelled from the spec: keys of the `auth_stat` dictionary of
`rpc_const` (RFC 1831 AUTH_OK=0 .. AUTH_FAILED=7 plus the RFC 2203
RPCSEC_GSS values 13 and 14). -/
def auth_statKeys : List Nat := [0, 1, 2, 3, 4, 5, 6, 7, 13, 14]

/-- The `Credential` object of rpc.py: a bag of attributes, each present
(`some`) only when the corresponding flavor branch assigned it. -/
structure Credential where
  flavor : Nat
  size : Option Nat := none
  stamp : Option Nat := none
  machine : Option (List Nat) := none
  uid : Option Nat := none
  gid : Option Nat := none
  gids : Option (List Nat) := none
  gss_version : Option Nat := none
  gss_proc : Option Nat := none
  gss_seq_num : Option Nat := none
  gss_service : Option Nat := none
  gss_context : Option (List Nat) := none
  gss_token : Option (List Nat) := none
  data : Option (List Nat) := none
deriving DecidableEq, Repr

/-- `RPC._rpc_credential(verifier)` (rpc.py lines 408-438).  `.ok none`
models the two explicit `return None` bound checks; `.error` an exception
raised by an underlying unpack call.  The second component is the working
buffer after the call. -/
def rpc_credential (verifier : Bool) (data : List Nat) :
    Except UErr (Option Credential) × List Nat :=
  if data.length < 8 then (.ok none, data)
  else
    match unpack_uintE data with
    | (.error e, d) => (.error e, d)
    | (.ok flavor, d) =>
      -- size = struct.unpack('!I', self.data[:4])[0]: peek without consuming
      if (d.take 4).length = 4 then
        let size := beVal (d.take 4)
        if d.length < size then (.ok none, d)
        else if flavor = AUTH_SYS then
          match unpack_uintE d with
          | (.error e, d1) => (.error e, d1)
          | (.ok sz, d1) =>
            match unpack_uintE d1 with
            | (.error e, d2) => (.error e, d2)
            | (.ok stamp, d2) =>
              match unpack_opaqueE 255 d2 with
              | (.error e, d3) => (.error e, d3)
              | (.ok machine, d3) =>
                match unpack_uintE d3 with
                | (.error e, d4) => (.error e, d4)
                | (.ok uid, d4) =>
                  match unpack_uintE d4 with
                  | (.error e, d5) => (.error e, d5)
                  | (.ok gid, d5) =>
                    match unpack_array_uint 16 d5 with
                    | (.error e, d6) => (.error e, d6)
                    | (.ok gids, d6) =>
                      (.ok (some {flavor := flavor, size := some sz,
                                  stamp := some stamp, machine := some machine,
                                  uid := some uid, gid := some gid,
                                  gids := some gids}), d6)
        else if flavor = RPCSEC_GSS then
          if ¬ verifier then
            match unpack_uintE d with
            | (.error e, d1) => (.error e, d1)
            | (.ok sz, d1) =>
              match unpack_uintE d1 with
              | (.error e, d2) => (.error e, d2)
              | (.ok gv, d2) =>
                match unpack_uintE d2 with
                | (.error e, d3) => (.error e, d3)
                | (.ok gp, d3) =>
                  match unpack_uintE d3 with
                  | (.error e, d4) => (.error e, d4)
                  | (.ok gseq, d4) =>
                    match unpack_uintE d4 with
                    | (.error e, d5) => (.error e, d5)
                    | (.ok gsvc, d5) =>
                      match unpack_opaqueE 0 d5 with
                      | (.error e, d6) => (.error e, d6)
                      | (.ok gctx, d6) =>
                        (.ok (some {flavor := flavor, size := some sz,
                                    gss_version := some gv, gss_proc := some gp,
                                    gss_seq_num := some gseq,
                                    gss_service := some gsvc,
                                    gss_context := some gctx}), d6)
          else
            match unpack_opaqueE 0 d with
            | (.error e, d1) => (.error e, d1)
            | (.ok tok, d1) =>
              (.ok (some {flavor := flavor, size := some size,
                          gss_token := some tok}), d1)
        else
          match unpack_uintE d with
          | (.error e, d1) => (.error e, d1)
          | (.ok sz, d1) =>
            let r := rawdata size 0 d1
            (.ok (some {flavor := flavor, size := some sz, data := some r.1}), r.2)
      else (.error .truncated, d)  -- unreachable: data.length ≥ 8

/-- The RPC object's decode-relevant attributes.  `none` models a Python
attribute that was never assigned; `rpc` is the `_rpc` validity flag
(`__nonzero__`, lines 255-257). -/
structure RPCState where
  data : List Nat
  rpc : Bool := false
  fragment_hdr : Option (Nat × Nat) := none  -- (size, last_fragment)
  xid : Option Nat := none
  type : Option Nat := none
  rpc_version : Option Nat := none
  program : Option Nat := none
  version : Option Nat := none
  procedure : Option Nat := none
  credential : Option Credential := none
  verifier : Option Credential := none
  reply_status : Option Nat := none
  accepted_status : Option Nat := none
  rejected_status : Option Nat := none
  auth_status : Option Nat := none
  prog_mismatch : Option (Nat × Nat) := none
  rpc_mismatch : Option (Nat × Nat) := none
  call_index : Option Nat := none
deriving DecidableEq, Repr

/-- One entry of `pktt._rpc_xid_map`: a Python dict whose keys are present
only once assigned. -/
structure XidEntry where
  program : Option Nat := none
  version : Option Nat := none
  procedure : Option Nat := none
  call_index : Option Nat := none
  flavor : Option Nat := none
  gss_proc : Option Nat := none
  gss_service : Option Nat := none
  gss_version : Option Nat := none
  reply_index : Option Nat := none
deriving DecidableEq, Repr

/-- The packet-trace collaborator: the capture `index` of the message being
decoded and the process-wide xid map (an association list; the lazy
`getattr` initialisation of the map in rpc.py lines 221-225 is the empty
list here). -/
structure Pktt where
  index : Nat
  rpc_xid_map : List (Nat × XidEntry) := []
deriving DecidableEq, Repr

def lookupX (m : List (Nat × XidEntry)) (x : Nat) : Option XidEntry :=
  match m with
  | [] => none
  | (k, e) :: rest => if k = x then some e else lookupX rest x

def insertX (m : List (Nat × XidEntry)) (x : Nat) (e : XidEntry) :
    List (Nat × XidEntry) :=
  match m with
  | [] => [(x, e)]
  | (k, e0) :: rest => if k = x then (x, e) :: rest else (k, e0) :: insertX rest x e

/-- rpc.py lines 169-180: the CALL branch of `_rpc_header`, up to the point
where control reaches `self._rpc = True` (modelled as `rpc := true`).
An `.ok` with `rpc` unchanged models an early `return`; `.error` models an
exception escaping, with the object as mutated so far (the working buffer
is already advanced by the failing unpack call). -/
def call_body (s : RPCState) : Except RPCState RPCState :=
  match unpack_uintE s.data with
  | (.error _, d) => .error {s with data := d}
  | (.ok rv, d) =>
  let s1 := {s with data := d, rpc_version := some rv}
  match unpack_uintE s1.data with
  | (.error _, d2) => .error {s1 with data := d2}
  | (.ok prog, d2) =>
  let s2 := {s1 with data := d2, program := some prog}
  match unpack_uintE s2.data with
  | (.error _, d3) => .error {s2 with data := d3}
  | (.ok vers, d3) =>
  let s3 := {s2 with data := d3, version := some vers}
  match unpack_uintE s3.data with
  | (.error _, d4) => .error {s3 with data := d4}
  | (.ok proc, d4) =>
  let s4 := {s3 with data := d4, procedure := some proc}
  match rpc_credential false s4.data with
  | (.error _, d5) => .error {s4 with data := d5}
  | (.ok cred, d5) =>
  let s5 := {s4 with data := d5, credential := cred}
  match cred with
  | none => .ok s5
  | some c =>
  match rpc_credential true s5.data with
  | (.error _, d6) => .error {s5 with data := d6}
  | (.ok ver, d6) =>
  let s6 := {s5 with data := d6, verifier := ver}
  if rv ≠ 2 ∨ ((c.flavor = 0 ∨ c.flavor = 1) ∧ ver = none) then .ok s6
  else .ok {s6 with rpc := true}

/-- rpc.py lines 183-214: the REPLY branch of `_rpc_header`. -/
def reply_body (s : RPCState) : Except RPCState RPCState :=
  match unpack_uintE s.data with
  | (.error _, d) => .error {s with data := d}
  | (.ok rs, d) =>
  let s1 := {s with data := d, reply_status := some rs}
  if rs = MSG_ACCEPTED then
    match rpc_credential true s1.data with
    | (.error _, d2) => .error {s1 with data := d2}
    | (.ok ver, d2) =>
    let s2 := {s1 with data := d2, verifier := ver}
    match ver with
    | none => .ok s2
    | some _ =>
    match unpack_uintE s2.data with
    | (.error _, d3) => .error {s2 with data := d3}
    | (.ok ast, d3) =>
    let s3 := {s2 with data := d3, accepted_status := some ast}
    if ast = PROG_MISMATCH then
      match unpack_uintE s3.data with
      | (.error _, d4) => .error {s3 with data := d4}
      | (.ok lo, d4) =>
      let s4 := {s3 with data := d4}
      match unpack_uintE s4.data with
      | (.error _, d5) => .error {s4 with data := d5}
      | (.ok hi, d5) =>
      .ok {s4 with data := d5, prog_mismatch := some (lo, hi), rpc := true}
    else if accept_statKeys.contains ast then .ok {s3 with rpc := true}
    else .ok s3
  else if rs = MSG_DENIED then
    match unpack_uintE s1.data with
    | (.error _, d2) => .error {s1 with data := d2}
    | (.ok rj, d2) =>
    let s2 := {s1 with data := d2, rejected_status := some rj}
    if rj = RPC_MISMATCH then
      match unpack_uintE s2.data with
      | (.error _, d3) => .error {s2 with data := d3}
      | (.ok lo, d3) =>
      let s3 := {s2 with data := d3}
      match unpack_uintE s3.data with
      | (.error _, d4) => .error {s3 with data := d4}
      | (.ok hi, d4) =>
      .ok {s3 with data := d4, rpc_mismatch := some (lo, hi), rpc := true}
    else if rj = AUTH_ERROR then
      match unpack_uintE s2.data with
      | (.error _, d3) => .error {s2 with data := d3}
      | (.ok au, d3) =>
      let s3 := {s2 with data := d3, auth_status := some au}
      if auth_statKeys.contains au then .ok {s3 with rpc := true}
      else .ok s3
    else if reject_statKeys.contains rj then .ok {s2 with rpc := true}
    else .ok s2
  else if reply_statKeys.contains rs then .ok {s1 with rpc := true}
  else .ok s1

/-- rpc.py lines 166-216: xid and message-type decode, then the call/reply
discriminated body.  A type other than CALL or REPLY returns early with
`rpc` still false. -/
def rpc_body (s : RPCState) : Except RPCState RPCState :=
  match unpack_uintE s.data with
  | (.error _, d) => .error {s with data := d}
  | (.ok x, d) =>
  let s1 := {s with data := d, xid := some x}
  match unpack_uintE s1.data with
  | (.error _, d2) => .error {s1 with data := d2}
  | (.ok ty, d2) =>
  let s2 := {s1 with data := d2, type := some ty}
  if ty = CALL then call_body s2
  else if ty = REPLY then reply_body s2
  else .ok s2

/-- Result of the TCP record-marking loop (rpc.py lines 141-158): `noMsg`
models the `return` on a zero computed size, `exc` an exception from
`unpack_uint`, `cont` the `break` that proceeds to the message body.  The
carried list is the working buffer at that point; the pair is the last
`fragment_hdr` written, as `(size, last_fragment)`. -/
inductive TcpRes where
  | noMsg (d : List Nat) (hdr : Nat × Nat)
  | exc (d : List Nat) (hdr : Option (Nat × Nat))
  | cont (d : List Nat) (hdr : Nat × Nat)
deriving DecidableEq, Repr

lemma unpack_uintE_at4 {data : List Nat} (h4 : 4 ≤ data.length) :
    unpack_uintE data = (.ok (beVal (data.take 4)), data.drop 4) := by
  simp [unpack_uintE, unpackE, rawdata, List.length_take, Nat.min_eq_left h4]

lemma unpack_uintE_ok_len {data d : List Nat} {v : Nat}
    (h : unpack_uintE data = (.ok v, d)) : 4 ≤ data.length ∧ d = data.drop 4 := by
  by_cases h4 : 4 ≤ data.length
  · rw [unpack_uintE_at4 h4] at h
    exact ⟨h4, (congrArg Prod.snd h).symm⟩
  · exfalso
    have hne : data.take 4 = data := List.take_of_length_le (by omega)
    have hlt : data.length ≠ 4 := by omega
    rw [show unpack_uintE data = (.error .truncated, data.drop 4) by
      simp [unpack_uintE, unpackE, rawdata, hne, hlt]] at h
    simp at h

/-- rpc.py lines 141-158: the fragment loop.  `save` is `save_data`,
`prev` the last `fragment_hdr` assigned so far.  Note that the computed
`size` adds `len(save_data)` to the 31-bit length of the current header,
and that the same cumulative `size` is used to slice the buffer. -/
def tcp_loop (save data : List Nat) (prev : Option (Nat × Nat)) : TcpRes :=
  match h : unpack_uintE data with
  | (.error _, d) => .exc d prev
  | (.ok psize, d) =>
    -- psize & 0x7FFFFFFF and psize >> 31: for naturals these are exactly
    -- psize % 2^31 and psize / 2^31
    let sz := psize % 0x80000000 + save.length
    let last := psize / 0x80000000
    if sz = 0 then .noMsg d (sz, last)
    else if last = 0 ∧ sz < d.length then
      tcp_loop (save ++ d.take sz) (d.drop sz) (some (sz, last))
    else .cont (save ++ d) (sz, last)
termination_by data.length
decreasing_by
  have hh := unpack_uintE_ok_len h
  rw [hh.2]
  simp only [List.length_drop]
  omega

/-- rpc.py lines 219-253: the xid correlation block, which runs only after
`self._rpc = True`.  A Python exception anywhere inside it (the REPLY side
is wrapped in `try/except: pass`; on the CALL side only attribute reads
that are provably present can raise, and an escaping exception would be
swallowed by the constructor) leaves the object exactly as mutated so far,
so each such point is modelled by returning the current state. -/
def correlate (s : RPCState) (p : Pktt) : RPCState × Pktt :=
  match s.xid with
  | none => (s, p)  -- self.xid read; always present when rpc = true
  | some xid =>
    let m0 := p.rpc_xid_map
    -- lines 221-228: initialize the map and the entry for this xid
    let m := if (lookupX m0 xid).isNone then insertX m0 xid {} else m0
    if s.type = some CALL then
      match s.program, s.version, s.procedure, s.credential with
      | some pr, some ve, some pc, some cr =>
        let e0 := (lookupX m xid).getD {}
        let e1 := {e0 with program := some pr, version := some ve,
                           procedure := some pc, call_index := some p.index,
                           flavor := some cr.flavor}
        if cr.flavor = RPCSEC_GSS then
          match cr.gss_proc, cr.gss_service, cr.gss_version with
          | some gp, some gs, some gv =>
            let e2 := {e1 with gss_proc := some gp, gss_service := some gs,
                               gss_version := some gv}
            (s, {p with rpc_xid_map := insertX m xid e2})
          | _, _, _ => (s, {p with rpc_xid_map := insertX m xid e1})
        else (s, {p with rpc_xid_map := insertX m xid e1})
      | _, _, _, _ => (s, {p with rpc_xid_map := m})
    else if s.type = some REPLY then
      let e := (lookupX m xid).getD {}
      match e.program with
      | none => (s, {p with rpc_xid_map := m})
      | some pr =>
        let s := {s with program := some pr}
        match e.version with
        | none => (s, {p with rpc_xid_map := m})
        | some ve =>
          let s := {s with version := some ve}
          match e.procedure with
          | none => (s, {p with rpc_xid_map := m})
          | some pc =>
            let s := {s with procedure := some pc}
            match e.call_index with
            | none => (s, {p with rpc_xid_map := m})
            | some ci =>
              let s := {s with call_index := some ci}
              match e.flavor with
              | none => (s, {p with rpc_xid_map := m})
              | some fl =>
                if fl = RPCSEC_GSS then
                  match e.gss_proc with
                  | none => (s, {p with rpc_xid_map := m})
                  | some gp =>
                    match s.verifier with
                    | none => (s, {p with rpc_xid_map := m})
                    | some v0 =>
                      let s := {s with verifier := some {v0 with gss_proc := some gp}}
                      match e.gss_service with
                      | none => (s, {p with rpc_xid_map := m})
                      | some gs =>
                        match s.verifier with
                        | none => (s, {p with rpc_xid_map := m})
                        | some v1 =>
                          let v1b := {v1 with gss_service := some gs}
                          let s := {s with verifier := some v1b}
                          match e.gss_version with
                          | none => (s, {p with rpc_xid_map := m})
                          | some gv =>
                            match s.verifier with
                            | none => (s, {p with rpc_xid_map := m})
                            | some v2 =>
                              let v2b := {v2 with gss_version := some gv}
                              let s := {s with verifier := some v2b}
                              let e2 := {e with reply_index := some p.index}
                              (s, {p with rpc_xid_map := insertX m xid e2})
                else
                  let e2 := {e with reply_index := some p.index}
                  (s, {p with rpc_xid_map := insertX m xid e2})
    else (s, {p with rpc_xid_map := m})  -- unreachable when rpc = true

/-- Result of `_rpc_header` as seen by the constructor: `ok` when the
method returns, `exc` when an exception escapes it (to be swallowed by the
constructor's bare `except`). -/
inductive HRes where
  | ok (s : RPCState) (p : Pktt)
  | exc (s : RPCState) (p : Pktt)
deriving DecidableEq, Repr

/-- Decode after the transport stage: the message body, then (only when
`self._rpc = True` was reached, line 218) the correlation block. -/
def rpc_tail (p : Pktt) (s : RPCState) : HRes :=
  match rpc_body s with
  | .error s1 => .exc s1 p
  | .ok s1 =>
    if s1.rpc then
      let r := correlate s1 p
      .ok r.1 r.2
    else .ok s1 p

/-- `RPC._rpc_header` (rpc.py lines 137-253): TCP fragment handling for
proto 6, pass-through for UDP (proto 17), immediate return otherwise. -/
def rpc_header (proto : Nat) (p : Pktt) (s : RPCState) : HRes :=
  if proto = 6 then
    match tcp_loop [] s.data none with
    | .noMsg d hdr => .ok {s with data := d, fragment_hdr := some hdr} p
    | .exc d hdr => .exc {s with data := d, fragment_hdr := hdr} p
    | .cont d hdr => rpc_tail p {s with data := d, fragment_hdr := some hdr}
  else if proto = 17 then rpc_tail p s
  else .ok s p

/-- The freshly constructed object before `_rpc_header` runs
(`__init__`, lines 127-130). -/
def initState (data : List Nat) : RPCState := {data := data}

/-- `RPC.__init__` (lines 114-135): run `_rpc_header`, swallowing any
exception; either way the mutated object and packet-trace state remain. -/
def rpcInit (p : Pktt) (data : List Nat) (proto : Nat) : RPCState × Pktt :=
  match rpc_header proto p (initState data) with
  | .ok s p1 => (s, p1)
  | .exc s p1 => (s, p1)

/-- The four external NFS codec entry points of `decode_nfs` (rpc.py lines
380-397): COMPOUND4args, CB_COMPOUND4args, COMPOUND4res, CB_COMPOUND4res. -/
inductive NfsEntry where
  | compound4args
  | cbCompound4args
  | compound4res
  | cbCompound4res
deriving DecidableEq, Repr

/-- Program classification of `decode_nfs` (rpc.py lines 362-371):
`some false` for the main NFS program, `some true` (`cb_flag`) for the
transient/callback program range, `none` otherwise ("Not an NFS packet"). -/
def nfs_classify (program : Nat) : Option Bool :=
  if program = 100003 then some false
  else if 0x40000000 ≤ program ∧ program < 0x60000000 then some true
  else none

/-- Entry-point selection of `decode_nfs` (lines 380-397) by message type
and `cb_flag`. -/
def nfs_entry_of (ty : Nat) (cb : Bool) : NfsEntry :=
  if ty = CALL then
    if cb then .cbCompound4args else .compound4args
  else
    if cb then .cbCompound4res else .compound4res

/-- `RPC.decode_nfs` (rpc.py lines 287-406).  The external NFS codec
(`FancyNFS4Unpacker`) is out of scope and abstracted as `codec`, which
receives the selected entry point and the payload bytes and returns the
cursor position on success; any exception it raises (`.error`) is caught
(lines 402-405).  The GSS hooks `decode_gss_data` / `decode_gss_checksum`
are external collaborators whose safe default is a no-op (spec §6) and are
omitted.  Returns the selected entry point (`none` models "no payload")
and the object state after the call. -/
def decode_nfs (codec : NfsEntry → List Nat → Except Unit Nat) (s : RPCState) :
    Option NfsEntry × RPCState :=
  -- lines 350-356: read self.program/version/procedure; absence returns
  match s.program, s.version, s.procedure with
  | some program, some version, some procedure =>
    -- line 358: nothing to process
    if s.data.length = 0 ∨ procedure = 0 ∨ version = 0 then (none, s)
    else
      match nfs_classify program with
      | none => (none, s)
      | some cb_flag =>
        if procedure = 1 ∧ ((¬ cb_flag ∧ version = 4) ∨ (cb_flag ∧ version = 1)) then
          match s.type with
          | none => (none, s)  -- self.type read inside the try; caught
          | some ty =>
            match codec (nfs_entry_of ty cb_flag) s.data with
            | .ok pos => (some (nfs_entry_of ty cb_flag), {s with data := s.data.drop pos})
            | .error _ => (none, s)
        else (none, s)
  | _, _, _ => (none, s)

/-!
## Concrete inputs used by the claim theorems
-/

/-- The three-fragment TCP buffer on which reassembly mis-slices:
header(last=0,len=4) "AAAA" header(last=0,len=4) "BBBB"
header(last=1,len=4) "CCCC". -/
def c2Bytes : List Nat :=
  [0, 0, 0, 4, 65, 65, 65, 65, 0, 0, 0, 4, 66, 66, 66, 66, 128, 0, 0, 4,
   67, 67, 67, 67]

/-- A UDP CALL whose credential decodes with flavor 3 (neither AUTH_SYS
nor RPCSEC_GSS) and whose verifier decode returns nothing (the buffer is
exhausted): xid 1, type CALL, rpc_version 2, program 100, version 4,
procedure 1, credential flavor 3 size 0. -/
def c3Bytes : List Nat :=
  [0, 0, 0, 1, 0, 0, 0, 0, 0, 0, 0, 2, 0, 0, 0, 100, 0, 0, 0, 4, 0, 0, 0, 1,
   0, 0, 0, 3, 0, 0, 0, 0]

/-- A UDP REPLY: xid 9, type REPLY, reply_status MSG_DENIED(1),
rejected_status RPC_MISMATCH(0), low 2, high 4. -/
def c5Bytes : List Nat :=
  [0, 0, 0, 9, 0, 0, 0, 1, 0, 0, 0, 1, 0, 0, 0, 0, 0, 0, 0, 2, 0, 0, 0, 4]

/-- A UDP CALL with an RPCSEC_GSS credential: xid 0x1234, program 100003,
version 4, procedure 1; credential flavor 6 (size 20, gss_version 1,
gss_proc 0, gss_seq_num 5, gss_service 1, empty context), verifier
flavor 6 with an empty token. -/
def c6CallBytes : List Nat :=
  [0, 0, 18, 52, 0, 0, 0, 0, 0, 0, 0, 2, 0, 1, 134, 163, 0, 0, 0, 4,
   0, 0, 0, 1, 0, 0, 0, 6, 0, 0, 0, 20, 0, 0, 0, 1, 0, 0, 0, 0, 0, 0, 0, 5,
   0, 0, 0, 1, 0, 0, 0, 0, 0, 0, 0, 6, 0, 0, 0, 0]

/-- A UDP REPLY to xid 0x1234: MSG_DENIED(1), AUTH_ERROR(1),
auth_status 1 — a valid reply that carries no verifier. -/
def c6ReplyBytes : List Nat :=
  [0, 0, 18, 52, 0, 0, 0, 1, 0, 0, 0, 1, 0, 0, 0, 1, 0, 0, 0, 1]

/-- A UDP CALL with an AUTH_NONE credential and verifier: xid 7, program
100003, version 4, procedure 1. -/
def c6wCallBytes : List Nat :=
  [0, 0, 0, 7, 0, 0, 0, 0, 0, 0, 0, 2, 0, 1, 134, 163, 0, 0, 0, 4,
   0, 0, 0, 1, 0, 0, 0, 0, 0, 0, 0, 0, 0, 0, 0, 0, 0, 0, 0, 0]

/-- A UDP accepted REPLY to xid 7: MSG_ACCEPTED(0), AUTH_NONE verifier,
accepted_status SUCCESS(0). -/
def c6wReplyBytes : List Nat :=
  [0, 0, 0, 7, 0, 0, 0, 1, 0, 0, 0, 0, 0, 0, 0, 0, 0, 0, 0, 0, 0, 0, 0, 0]

/-- A UDP REPLY with an xid (5) never seen as a call: MSG_DENIED,
AUTH_ERROR, auth_status 1. -/
def c7Bytes : List Nat :=
  [0, 0, 0, 5, 0, 0, 0, 1, 0, 0, 0, 1, 0, 0, 0, 1, 0, 0, 0, 1]

/-- A decoded NFS call state ready for payload dispatch. -/
def c8State : RPCState :=
  {data := [1], program := some 100003, version := some 4,
   procedure := some 1, type := some 0}

/-- A decoded callback reply state in the transient program range. -/
def c8StateCb : RPCState :=
  {data := [1], program := some 0x50000001, version := some 1,
   procedure := some 1, type := some 1}

/-- A decoded state whose program is neither NFS nor in the transient
range. -/
def c8StateOther : RPCState :=
  {data := [1], program := some 17, version := some 4, procedure := some 1,
   type := some 0}

/-- A valid NFS message whose payload is empty and whose procedure is the
NULL procedure. -/
def c10State : RPCState :=
  {data := [], rpc := true, program := some 100003, version := some 4,
   procedure := some 0}
/-!
## Supporting lemmas
-/

lemma le_roundup4 (n : Nat) : n ≤ (n + 3) / 4 * 4 := by
  have h1 := Nat.div_add_mod (n + 3) 4
  have h2 : (n + 3) % 4 < 4 := Nat.mod_lt _ (by norm_num)
  omega

/-- An opaque or string whose declared length exceeds the remaining buffer
does not fail: `rawdata` returns the available bytes. -/
lemma opaque_overrun {d2 : List Nat} (h4 : 4 ≤ d2.length)
    (hlt : (d2.drop 4).length < beVal (d2.take 4)) :
    unpack_opaqueE 0 d2 = (Except.ok (d2.drop 4), []) ∧
    unpack_string 0 0 d2 = (Except.ok (d2.drop 4), []) := by
  have hu := unpack_uintE_at4 h4
  have htk : (d2.drop 4).take (beVal (d2.take 4)) = d2.drop 4 :=
    List.take_of_length_le (Nat.le_of_lt hlt)
  rw [List.length_drop] at hlt
  constructor
  · simp [unpack_opaqueE, hu, rawdata, htk]
    have := le_roundup4 (beVal (d2.take 4))
    omega
  · simp [unpack_string, hu, rawdata, htk]
    omega

/-- C1 counterexample: the claim predicts that a short fixed-width read
fails with `Truncated` while leaving the buffer unchanged, and that a fixed
opaque longer than the remaining buffer fails.  On `[5]`, `unpack` does
fail but the buffer has been consumed (it is `[]`, not `[5]`); on `[65]`, a
fixed opaque of 4 declared bytes does not fail at all: it returns the one
available byte. -/
theorem C1_counterexample :
    (unpack_uintE [5]).1 = Except.error UErr.truncated ∧
    (unpack_uintE [5]).2 = [] ∧ ([] : List Nat) ≠ [5] ∧
    unpack_fopaqueE 4 [65] = (Except.ok [65], []) := by decide

/-- C1 (amended): a fixed-width read on a buffer shorter than the field
fails (with the truncated error), but the buffer is advanced past the
requested size (emptied), not left unchanged; a fixed opaque whose size
exceeds the remaining buffer, and an opaque or string whose declared
length exceeds the remaining buffer, do not fail at all: they return the
available bytes and empty the buffer. -/
theorem C1_short_reads (size : Nat) (data : List Nat) (h : data.length < size) :
    unpackE size data = (Except.error UErr.truncated, []) ∧
    unpack_fopaqueE size data = (Except.ok data, []) ∧
    (∀ d2 : List Nat, 4 ≤ d2.length → (d2.drop 4).length < beVal (d2.take 4) →
      unpack_opaqueE 0 d2 = (Except.ok (d2.drop 4), []) ∧
      unpack_string 0 0 d2 = (Except.ok (d2.drop 4), [])) := by
  have htake : data.take size = data := List.take_of_length_le (Nat.le_of_lt h)
  have hlen : data.length ≠ size := Nat.ne_of_lt h
  refine ⟨?_, ?_, fun d2 h4 hlt => opaque_overrun h4 hlt⟩
  · simp [unpackE, rawdata, htake, hlen]
    omega
  · simp [unpack_fopaqueE, rawdata, htake]
    have := le_roundup4 size
    omega

/-- Witness for `C1_short_reads` at concrete inputs. -/
theorem C1_short_reads_witness :
    unpackE 4 [5] = (Except.error UErr.truncated, []) ∧
    unpack_fopaqueE 4 [65] = (Except.ok [65], []) ∧
    unpack_opaqueE 0 [0, 0, 0, 10] = (Except.ok [], []) ∧
    unpack_string 0 0 [0, 0, 0, 10] = (Except.ok [], []) := by
  have h1 := C1_short_reads 4 [5] (by decide)
  have h2 := C1_short_reads 4 [65] (by decide)
  have h3 := (C1_short_reads 1 [] (by decide)).2.2 [0, 0, 0, 10] (by decide) (by decide)
  exact ⟨h1.1, h2.2.1, h3.1, h3.2⟩

/-- C4 counterexample: with `max = 0`, an opaque whose declared length (10)
exceeds the remaining buffer (0 bytes) is predicted by the claim to fail
with `LimitExceeded`; the code succeeds, returning the empty available
span. -/
theorem C4_counterexample :
    (unpack_opaqueE 0 [0, 0, 0, 10]).1 ≠ Except.error UErr.limitExceeded ∧
    (unpack_opaqueE 0 [0, 0, 0, 10]).1 = Except.ok [] := by decide

/-- C4 (amended): with `max > 0`, a decoded uint32 length exceeding `max`
fails with `LimitExceeded` before any further bytes are read (only the four
length bytes have been consumed); a declared length exceeding the remaining
buffer does not fail: the available bytes are returned. -/
theorem C4_opaque_bounds (maxc : Nat) (data : List Nat) (hm : 0 < maxc)
    (h4 : 4 ≤ data.length) (hgt : maxc < beVal (data.take 4)) :
    unpack_opaqueE maxc data = (Except.error UErr.limitExceeded, data.drop 4) ∧
    (∀ d2 : List Nat, 4 ≤ d2.length → (d2.drop 4).length < beVal (d2.take 4) →
      (unpack_opaqueE 0 d2).1 = Except.ok (d2.drop 4)) := by
  have hu := unpack_uintE_at4 h4
  constructor
  · simp [unpack_opaqueE, hu, hm, hgt]
  · intro d2 h42 hlt
    rw [(opaque_overrun h42 hlt).1]

/-- Witness for `C4_opaque_bounds` at concrete inputs. -/
theorem C4_opaque_bounds_witness :
    unpack_opaqueE 2 [0, 0, 0, 3, 9, 9, 9] =
      (Except.error UErr.limitExceeded, [9, 9, 9]) ∧
    (unpack_opaqueE 0 [0, 0, 0, 10]).1 = Except.ok [] := by
  have h := C4_opaque_bounds 2 [0, 0, 0, 3, 9, 9, 9] (by decide) (by decide) (by decide)
  exact ⟨h.1, h.2 [0, 0, 0, 10] (by decide) (by decide)⟩

lemma lookupX_insertX (m : List (Nat × XidEntry)) (x : Nat) (e : XidEntry) :
    lookupX (insertX m x e) x = some e := by
  induction m with
  | nil => simp [insertX, lookupX]
  | cons kv rest ih =>
    obtain ⟨k, e0⟩ := kv
    by_cases hk : k = x
    · simp [insertX, lookupX, hk]
    · simp [insertX, lookupX, hk, ih]

/-- A credential (not a verifier) decoded with flavor RPCSEC_GSS always
carries its gss_proc/gss_service/gss_version attributes. -/
lemma rpc_credential_gss {data d : List Nat} {c : Credential}
    (h : rpc_credential false data = (.ok (some c), d))
    (hf : c.flavor = RPCSEC_GSS) :
    c.gss_proc ≠ none ∧ c.gss_service ≠ none ∧ c.gss_version ≠ none := by
  unfold rpc_credential at h
  repeat' split at h
  all_goals try simp_all [AUTH_SYS, RPCSEC_GSS]
  all_goals repeat' split at h
  all_goals try simp_all [AUTH_SYS, RPCSEC_GSS]
  all_goals try (rw [← h.1] at hf)
  all_goals try (rw [← h.1])
  all_goals simp_all [AUTH_SYS, RPCSEC_GSS]

/-- Outcome of the CALL branch: type/xid and the reply-side discriminants
are untouched, and a state marked valid carries program, version,
procedure, a credential, a verifier when the flavor is 0 or 1, and the gss
attributes when the flavor is RPCSEC_GSS. -/
lemma call_body_ok {s s' : RPCState} (h : call_body s = .ok s') (h0 : s.rpc = false) :
    s'.type = s.type ∧ s'.xid = s.xid ∧
    s'.reply_status = s.reply_status ∧ s'.accepted_status = s.accepted_status ∧
    s'.rejected_status = s.rejected_status ∧ s'.auth_status = s.auth_status ∧
    (s'.rpc = true →
      ∃ pr ve pc c, s'.program = some pr ∧ s'.version = some ve ∧
        s'.procedure = some pc ∧ s'.credential = some c ∧
        ((c.flavor = 0 ∨ c.flavor = 1) → s'.verifier ≠ none) ∧
        (c.flavor = RPCSEC_GSS →
          c.gss_proc ≠ none ∧ c.gss_service ≠ none ∧ c.gss_version ≠ none)) := by
  unfold call_body at h
  simp only [] at h
  repeat' split at h
  all_goals try (simp only [Except.ok.injEq] at h; subst h)
  all_goals try simp_all
  all_goals exact fun hf => rpc_credential_gss (by assumption) hf

/-- Outcome of the REPLY branch: the call-side fields are untouched and a
state marked valid only carries recognized discriminant values. -/
lemma reply_body_ok {s s' : RPCState} (h : reply_body s = .ok s') (h0 : s.rpc = false)
    (h1 : s.reply_status = none) (h2 : s.accepted_status = none)
    (h3 : s.rejected_status = none) (h4 : s.auth_status = none) :
    s'.type = s.type ∧ s'.xid = s.xid ∧ s'.program = s.program ∧
    s'.version = s.version ∧ s'.procedure = s.procedure ∧
    s'.credential = s.credential ∧ s'.call_index = s.call_index ∧
    (s'.rpc = true →
      (∀ v, s'.reply_status = some v → reply_statKeys.contains v = true) ∧
      (∀ v, s'.accepted_status = some v → accept_statKeys.contains v = true) ∧
      (∀ v, s'.rejected_status = some v → reject_statKeys.contains v = true) ∧
      (∀ v, s'.auth_status = some v → auth_statKeys.contains v = true)) := by
  unfold reply_body at h
  simp only [] at h
  repeat' split at h
  all_goals try (simp only [Except.ok.injEq] at h; subst h)
  all_goals try simp_all [MSG_ACCEPTED, MSG_DENIED, PROG_MISMATCH, RPC_MISMATCH,
    AUTH_ERROR, reply_statKeys, accept_statKeys, reject_statKeys, auth_statKeys]

/-- An exception escaping the CALL branch leaves `rpc` as it was. -/
lemma call_body_err {s s' : RPCState} (h : call_body s = .error s') :
    s'.rpc = s.rpc := by
  unfold call_body at h
  simp only [] at h
  repeat' split at h
  all_goals try (simp only [Except.error.injEq] at h; subst h)
  all_goals simp_all

/-- An exception escaping the REPLY branch leaves `rpc` as it was. -/
lemma reply_body_err {s s' : RPCState} (h : reply_body s = .error s') :
    s'.rpc = s.rpc := by
  unfold reply_body at h
  simp only [] at h
  repeat' split at h
  all_goals try (simp only [Except.error.injEq] at h; subst h)
  all_goals simp_all

/-- An exception escaping `_rpc_header`'s body leaves `rpc` as it was. -/
lemma rpc_body_err {s s' : RPCState} (h : rpc_body s = .error s') :
    s'.rpc = s.rpc := by
  unfold rpc_body at h
  simp only [] at h
  repeat' split at h
  all_goals try (simp only [Except.error.injEq] at h; subst h)
  all_goals try simp_all
  · exact (call_body_err h).trans (by rfl)
  · exact (reply_body_err h).trans (by rfl)

/-- Dispatch of the message body: validity facts usable for the whole
header, starting from a freshly transported state. -/
lemma rpc_body_ok {s s' : RPCState} (h : rpc_body s = .ok s') (h0 : s.rpc = false)
    (hrs : s.reply_status = none) (has : s.accepted_status = none)
    (hrj : s.rejected_status = none) (hau : s.auth_status = none)
    (hpr : s.program = none) (hve : s.version = none) (hpc : s.procedure = none) :
    (s'.rpc = true →
      (∃ x, s'.xid = some x) ∧ (s'.type = some CALL ∨ s'.type = some REPLY) ∧
      (∀ v, s'.reply_status = some v → reply_statKeys.contains v = true) ∧
      (∀ v, s'.accepted_status = some v → accept_statKeys.contains v = true) ∧
      (∀ v, s'.rejected_status = some v → reject_statKeys.contains v = true) ∧
      (∀ v, s'.auth_status = some v → auth_statKeys.contains v = true)) ∧
    (s'.type = some CALL → s'.rpc = true →
      ∃ pr ve pc c, s'.program = some pr ∧ s'.version = some ve ∧
        s'.procedure = some pc ∧ s'.credential = some c ∧
        ((c.flavor = 0 ∨ c.flavor = 1) → s'.verifier ≠ none) ∧
        (c.flavor = RPCSEC_GSS →
          c.gss_proc ≠ none ∧ c.gss_service ≠ none ∧ c.gss_version ≠ none)) ∧
    (s'.type = some REPLY →
      s'.program = none ∧ s'.version = none ∧ s'.procedure = none) := by
  unfold rpc_body at h
  simp only [] at h
  repeat' split at h
  all_goals try (simp only [Except.ok.injEq] at h; subst h)
  all_goals try simp_all [CALL, REPLY]
  · have hcb := call_body_ok h (by rfl)
    simp_all [CALL, REPLY]
  · have hrb := reply_body_ok h (by rfl) (by rfl) (by rfl) (by rfl) (by rfl)
    simp_all [CALL, REPLY]

/-- `correlate` only ever touches program/version/procedure/call_index, the
gss attributes of an existing verifier, and the xid map. -/
lemma correlate_fields (s : RPCState) (p : Pktt) :
    (correlate s p).1.rpc = s.rpc ∧ (correlate s p).1.type = s.type ∧
    (correlate s p).1.xid = s.xid ∧ (correlate s p).1.data = s.data ∧
    (correlate s p).1.credential = s.credential ∧
    (correlate s p).1.reply_status = s.reply_status ∧
    (correlate s p).1.accepted_status = s.accepted_status ∧
    (correlate s p).1.rejected_status = s.rejected_status ∧
    (correlate s p).1.auth_status = s.auth_status ∧
    ((correlate s p).1.verifier = none ↔ s.verifier = none) ∧
    (correlate s p).2.index = p.index := by
  unfold correlate
  simp only []
  repeat' split
  all_goals try rfl
  all_goals simp_all

/-- The constructor's view: `rpcInit` returns the state of `_rpc_header`
whether it returned or raised. -/
lemma rpcInit_eq {p : Pktt} {data : List Nat} {proto : Nat}
    {s2 : RPCState} {p2 : Pktt} (he : rpcInit p data proto = (s2, p2)) :
    rpc_header proto p (initState data) = .ok s2 p2 ∨
    rpc_header proto p (initState data) = .exc s2 p2 := by
  unfold rpcInit at he
  split at he
  · rename_i hh
    simp only [Prod.mk.injEq] at he
    obtain ⟨rfl, rfl⟩ := he
    exact Or.inl hh
  · rename_i hh
    simp only [Prod.mk.injEq] at he
    obtain ⟨rfl, rfl⟩ := he
    exact Or.inr hh

/-- An exception escaping `_rpc_header` can only happen with `_rpc` still
false. -/
lemma rpc_header_exc {proto : Nat} {p : Pktt} {data : List Nat}
    {s' : RPCState} {p' : Pktt}
    (h : rpc_header proto p (initState data) = .exc s' p') : s'.rpc = false := by
  unfold rpc_header rpc_tail initState at h
  simp only [] at h
  repeat' split at h
  all_goals try (simp only [HRes.exc.injEq] at h; obtain ⟨rfl, rfl⟩ := h)
  all_goals try simp_all
  all_goals exact (rpc_body_err (by assumption)).trans (by rfl)

/-- A valid result of `_rpc_header` decomposes into a clean transported
state, a successful body decode reaching `_rpc = True`, and the
correlation block. -/
lemma rpc_header_ok_valid {proto : Nat} {p : Pktt} {data : List Nat}
    {s2 : RPCState} {p2 : Pktt}
    (h : rpc_header proto p (initState data) = .ok s2 p2) (hv : s2.rpc = true) :
    ∃ s0 s1, rpc_body s0 = .ok s1 ∧ s1.rpc = true ∧ s0.rpc = false ∧
      s0.reply_status = none ∧ s0.accepted_status = none ∧
      s0.rejected_status = none ∧ s0.auth_status = none ∧
      s0.program = none ∧ s0.version = none ∧ s0.procedure = none ∧
      s0.credential = none ∧ s0.verifier = none ∧ s0.call_index = none ∧
      s0.xid = none ∧ s0.type = none ∧
      correlate s1 p = (s2, p2) := by
  unfold rpc_header rpc_tail initState at h
  simp only [] at h
  repeat' split at h
  all_goals try (simp only [HRes.ok.injEq] at h; obtain ⟨rfl, rfl⟩ := h)
  all_goals first
    | exact ⟨_, _, by assumption, by assumption, rfl, rfl, rfl, rfl, rfl, rfl,
        rfl, rfl, rfl, rfl, rfl, rfl, rfl, rfl⟩
    | simp_all

/-- The decomposition of any valid decoded message. -/
lemma rpcInit_valid {p : Pktt} {data : List Nat} {proto : Nat}
    {s2 : RPCState} {p2 : Pktt}
    (he : rpcInit p data proto = (s2, p2)) (hv : s2.rpc = true) :
    ∃ s0 s1, rpc_body s0 = .ok s1 ∧ s1.rpc = true ∧ s0.rpc = false ∧
      s0.reply_status = none ∧ s0.accepted_status = none ∧
      s0.rejected_status = none ∧ s0.auth_status = none ∧
      s0.program = none ∧ s0.version = none ∧ s0.procedure = none ∧
      s0.credential = none ∧ s0.verifier = none ∧ s0.call_index = none ∧
      s0.xid = none ∧ s0.type = none ∧
      correlate s1 p = (s2, p2) := by
  rcases rpcInit_eq he with hh | hh
  · exact rpc_header_ok_valid hh hv
  · exact absurd (rpc_header_exc hh) (by simp [hv])

/-- The CALL side of the correlation block stores the call's metadata under
its xid, leaving the object untouched. -/
lemma correlate_call_store {s : RPCState} {p : Pktt} {x pr ve pc : Nat}
    {c : Credential}
    (hx : s.xid = some x) (ht : s.type = some CALL)
    (hpr : s.program = some pr) (hve : s.version = some ve)
    (hpc : s.procedure = some pc) (hcr : s.credential = some c) :
    (correlate s p).1 = s ∧ (correlate s p).2.index = p.index ∧
    ∃ e, lookupX (correlate s p).2.rpc_xid_map x = some e ∧
      e.program = some pr ∧ e.version = some ve ∧ e.procedure = some pc ∧
      e.call_index = some p.index ∧ e.flavor = some c.flavor := by
  obtain ⟨sd, srpc, sfh, sxid, sty, srv, sprog, sver, sproc, scred, sverif,
    srs, sas, srj, sau, spm, srm, sci⟩ := s
  simp only [] at hx ht hpr hve hpc hcr
  subst hx; subst ht; subst hpr; subst hve; subst hpc; subst hcr
  unfold correlate
  simp only []
  repeat' split
  all_goals first
    | exact ⟨rfl, rfl, _, lookupX_insertX .., rfl, rfl, rfl, rfl, rfl⟩
    | simp_all

lemma correlate_call_gss {s : RPCState} {p : Pktt} {x pr ve pc gp gs gv : Nat}
    {c : Credential}
    (hx : s.xid = some x) (ht : s.type = some CALL)
    (hpr : s.program = some pr) (hve : s.version = some ve)
    (hpc : s.procedure = some pc) (hcr : s.credential = some c)
    (hf : c.flavor = RPCSEC_GSS) (hgp : c.gss_proc = some gp)
    (hgs : c.gss_service = some gs) (hgv : c.gss_version = some gv) :
    ∃ e, lookupX (correlate s p).2.rpc_xid_map x = some e ∧
      e.program = some pr ∧ e.version = some ve ∧ e.procedure = some pc ∧
      e.call_index = some p.index ∧ e.flavor = some RPCSEC_GSS ∧
      e.gss_proc = some gp ∧ e.gss_service = some gs ∧ e.gss_version = some gv := by
  obtain ⟨sd, srpc, sfh, sxid, sty, srv, sprog, sver, sproc, scred, sverif,
    srs, sas, srj, sau, spm, srm, sci⟩ := s
  obtain ⟨cfl, csz, cst, cma, cuid, cgid, cgids, cgvn, cgp, cgsn, cgsvc,
    cgc, cgt, cda⟩ := c
  simp only [] at hx ht hpr hve hpc hcr hf hgp hgs hgv
  subst hx; subst ht; subst hpr; subst hve; subst hpc; subst hcr
  subst hf; subst hgp; subst hgs; subst hgv
  unfold correlate
  simp only []
  repeat' split
  all_goals first
    | exact ⟨_, lookupX_insertX .., rfl, rfl, rfl, rfl, rfl, rfl, rfl, rfl⟩
    | simp_all

/-- The REPLY side of the correlation block when the xid has no recorded
call: the object is left untouched. -/
lemma correlate_reply_noprog {s : RPCState} {p : Pktt} {x : Nat}
    (hx : s.xid = some x) (ht : s.type = some REPLY)
    (hl : ∀ e, lookupX p.rpc_xid_map x = some e → e.program = none) :
    (correlate s p).1 = s := by
  obtain ⟨sd, srpc, sfh, sxid, sty, srv, sprog, sver, sproc, scred, sverif,
    srs, sas, srj, sau, spm, srm, sci⟩ := s
  simp only [] at hx ht
  subst hx; subst ht
  rcases hlk : lookupX p.rpc_xid_map x with _ | e2
  · unfold correlate
    simp only []
    rw [hlk]
    simp [hlk, lookupX_insertX, CALL, REPLY]
  · have hpr := hl e2 hlk
    unfold correlate
    simp only []
    rw [hlk]
    simp [hlk, hpr, CALL, REPLY]

lemma correlate_reply_plain {s : RPCState} {p : Pktt} {x pr ve pc ci fl : Nat}
    {e : XidEntry}
    (hx : s.xid = some x) (ht : s.type = some REPLY)
    (hl : lookupX p.rpc_xid_map x = some e)
    (hepr : e.program = some pr) (heve : e.version = some ve)
    (hepc : e.procedure = some pc) (heci : e.call_index = some ci)
    (hefl : e.flavor = some fl) (hfl : fl ≠ RPCSEC_GSS) :
    (correlate s p).1.program = some pr ∧ (correlate s p).1.version = some ve ∧
    (correlate s p).1.procedure = some pc ∧
    (correlate s p).1.call_index = some ci ∧
    (correlate s p).1.verifier = s.verifier ∧
    lookupX (correlate s p).2.rpc_xid_map x =
      some {e with reply_index := some p.index} := by
  obtain ⟨sd, srpc, sfh, sxid, sty, srv, sprog, sver, sproc, scred, sverif,
    srs, sas, srj, sau, spm, srm, sci⟩ := s
  obtain ⟨epr, eve, epc, eci, efl, egp, egs, egv, eri⟩ := e
  simp only [] at hx ht hepr heve hepc heci hefl
  subst hx; subst ht; subst hepr; subst heve; subst hepc; subst heci; subst hefl
  unfold correlate
  simp only []
  rw [hl]
  simp only [Option.isNone_some, Bool.false_eq_true, if_false, Option.getD_some]
  repeat' split
  all_goals simp_all [CALL, REPLY, lookupX_insertX]

lemma correlate_reply_gss {s : RPCState} {p : Pktt} {x pr ve pc ci gp gs gv : Nat}
    {e : XidEntry} {v0 : Credential}
    (hx : s.xid = some x) (ht : s.type = some REPLY)
    (hl : lookupX p.rpc_xid_map x = some e)
    (hepr : e.program = some pr) (heve : e.version = some ve)
    (hepc : e.procedure = some pc) (heci : e.call_index = some ci)
    (hefl : e.flavor = some RPCSEC_GSS)
    (hegp : e.gss_proc = some gp) (hegs : e.gss_service = some gs)
    (hegv : e.gss_version = some gv)
    (hverif : s.verifier = some v0) :
    (correlate s p).1.program = some pr ∧ (correlate s p).1.version = some ve ∧
    (correlate s p).1.procedure = some pc ∧
    (correlate s p).1.call_index = some ci ∧
    (∃ v1, (correlate s p).1.verifier = some v1 ∧ v1.gss_proc = some gp ∧
      v1.gss_service = some gs ∧ v1.gss_version = some gv) ∧
    lookupX (correlate s p).2.rpc_xid_map x =
      some {e with reply_index := some p.index} := by
  obtain ⟨sd, srpc, sfh, sxid, sty, srv, sprog, sver, sproc, scred, sverif,
    srs, sas, srj, sau, spm, srm, sci⟩ := s
  obtain ⟨epr, eve, epc, eci, efl, egp, egs, egv2, eri⟩ := e
  simp only [] at hx ht hepr heve hepc heci hefl hegp hegs hegv hverif
  subst hx; subst ht; subst hepr; subst heve; subst hepc; subst heci
  subst hefl; subst hegp; subst hegs; subst hegv; subst hverif
  unfold correlate
  simp only []
  rw [hl]
  simp only [Option.isNone_some, Bool.false_eq_true, if_false, Option.getD_some]
  repeat' split
  all_goals simp_all [CALL, REPLY, lookupX_insertX]

lemma decode_nfs_noprog {codec : NfsEntry → List Nat → Except Unit Nat}
    {s : RPCState} (h : s.program = none) :
    decode_nfs codec s = (none, s) := by
  unfold decode_nfs
  split
  · simp_all
  · rfl

/-- C10: for a decoded NFS or callback-range message, `decode_nfs` returns
no payload, without raising, whenever the remaining payload buffer is
empty, the procedure is 0 (NULL), or the version is 0, leaving the message
state untouched (still a valid RPC message). -/
theorem C10_null_payloads (s : RPCState)
    (codec : NfsEntry → List Nat → Except Unit Nat) (pr v pc : Nat)
    (hrpc : s.rpc = true) (hp : s.program = some pr)
    (hcls : pr = 100003 ∨ (0x40000000 ≤ pr ∧ pr < 0x60000000))
    (hv : s.version = some v) (hc : s.procedure = some pc)
    (h0 : s.data = [] ∨ pc = 0 ∨ v = 0) :
    decode_nfs codec s = (none, s) := by
  unfold decode_nfs
  rw [hp, hv, hc]
  simp only []
  rcases h0 with h | h | h <;> simp [h]

/-- C9: an exception anywhere while decoding the RPC header is caught by
the constructor — `rpcInit` returns normally with the object marked
not-RPC (`rpc = false`), never exposing a partially decoded header as
valid; and an exception raised by the external NFS codec is caught inside
`decode_nfs`, which returns no payload and leaves the object (including
its validity flag) unchanged. -/
theorem C9_error_isolation :
    (∀ (p : Pktt) (data : List Nat) (proto : Nat) (s1 : RPCState) (p1 : Pktt),
      rpc_header proto p (initState data) = HRes.exc s1 p1 →
      rpcInit p data proto = (s1, p1) ∧ s1.rpc = false) ∧
    (∀ (s : RPCState) (codec : NfsEntry → List Nat → Except Unit Nat),
      (∀ e d, codec e d = Except.error ()) →
      decode_nfs codec s = (none, s)) := by
  constructor
  · intro p data proto s1 p1 hh
    refine ⟨?_, rpc_header_exc hh⟩
    unfold rpcInit
    rw [hh]
  · intro s codec hc
    unfold decode_nfs
    repeat' split
    all_goals try rfl
    all_goals simp_all [hc]

/-- C8: the payload dispatcher classifies program 100003 as main NFS
(`cb_flag = false`) and any program in [0x40000000, 0x60000000) — e.g.
0x50000001 — as a callback (`cb_flag = true`); any other program yields no
payload with the state unchanged (no bytes consumed); and with procedure 1
and the version matching the flag (4 main, 1 callback) it hands the buffer
to exactly the entry point selected by (message type, cb_flag). -/
theorem C8_dispatch :
    nfs_classify 100003 = some false ∧
    nfs_classify 0x50000001 = some true ∧
    (∀ pr : Nat, nfs_classify pr = none →
      ∀ (s : RPCState) (codec : NfsEntry → List Nat → Except Unit Nat),
        s.program = some pr → decode_nfs codec s = (none, s)) ∧
    (∀ (s : RPCState) (codec : NfsEntry → List Nat → Except Unit Nat)
        (pr : Nat) (cb : Bool) (ty pos : Nat),
      s.program = some pr → nfs_classify pr = some cb →
      s.procedure = some 1 → s.version = some (if cb then 1 else 4) →
      s.type = some ty → s.data ≠ [] →
      codec (nfs_entry_of ty cb) s.data = Except.ok pos →
      decode_nfs codec s = (some (nfs_entry_of ty cb),
        {s with data := s.data.drop pos})) := by
  refine ⟨by decide, by decide, ?_, ?_⟩
  · intro pr hcls s codec hp
    unfold decode_nfs
    repeat' split
    all_goals try rfl
    all_goals simp_all
  · intro s codec pr cb ty pos hp hcls hproc hver hty hdata hcodec
    unfold decode_nfs
    rw [hp, hproc, hty, hver]
    have hlen : s.data.length ≠ 0 := by
      simpa using fun hh => hdata (List.length_eq_zero.mp hh)
    cases cb <;> simp_all [hcls, hcodec]

/-- C5: a message marked valid has a recognized message type, and every
reply discriminant it carries (reply_status, accepted_status,
rejected_status, auth_status) is in the recognized enumeration; an
unrecognized discriminant leaves the message not valid. -/
theorem C5_discriminants (p : Pktt) (data : List Nat) (proto : Nat)
    (hv : (rpcInit p data proto).1.rpc = true) :
    ((rpcInit p data proto).1.type = some CALL ∨
     (rpcInit p data proto).1.type = some REPLY) ∧
    (∀ v, (rpcInit p data proto).1.reply_status = some v →
      reply_statKeys.contains v = true) ∧
    (∀ v, (rpcInit p data proto).1.accepted_status = some v →
      accept_statKeys.contains v = true) ∧
    (∀ v, (rpcInit p data proto).1.rejected_status = some v →
      reject_statKeys.contains v = true) ∧
    (∀ v, (rpcInit p data proto).1.auth_status = some v →
      auth_statKeys.contains v = true) := by
  have he : rpcInit p data proto =
      ((rpcInit p data proto).1, (rpcInit p data proto).2) := rfl
  obtain ⟨s0, s1, hb, h1rpc, h0rpc, hrs, has, hrj, hau, hpr, hve, hpc, hcr0,
    hver0, hci, hx0, ht0, hcor⟩ := rpcInit_valid he hv
  have hcf := correlate_fields s1 p
  rw [hcor] at hcf
  obtain ⟨hf1, hf2, hf3, hf4, hf5, hf6, hf7, hf8, hf9, hf10, hf11⟩ := hcf
  have hbo := rpc_body_ok hb h0rpc hrs has hrj hau hpr hve hpc
  obtain ⟨hx1, htys, hcrs, hcas, hcrj, hcau⟩ := hbo.1 h1rpc
  refine ⟨?_, ?_, ?_, ?_, ?_⟩
  · rw [hf2]; exact htys
  · intro v hvv; exact hcrs v (hf6 ▸ hvv)
  · intro v hvv; exact hcas v (hf7 ▸ hvv)
  · intro v hvv; exact hcrj v (hf8 ▸ hvv)
  · intro v hvv; exact hcau v (hf9 ▸ hvv)

/-- C3 (amended): a valid CALL always carries a decoded credential (a
credential that fails to decode abandons the message), and a verifier that
fails to decode abandons the message when the credential flavor is 0 or 1
(AUTH_NONE / AUTH_SYS); for other flavors a missing verifier does not
abandon the message. -/
theorem C3_call_verifier (p : Pktt) (data : List Nat) (proto : Nat)
    (hv : (rpcInit p data proto).1.rpc = true)
    (ht : (rpcInit p data proto).1.type = some CALL) :
    ∃ c, (rpcInit p data proto).1.credential = some c ∧
      ((c.flavor = 0 ∨ c.flavor = 1) →
        (rpcInit p data proto).1.verifier ≠ none) := by
  have he : rpcInit p data proto =
      ((rpcInit p data proto).1, (rpcInit p data proto).2) := rfl
  obtain ⟨s0, s1, hb, h1rpc, h0rpc, hrs, has, hrj, hau, hpr, hve, hpc, hcr0,
    hver0, hci, hx0, ht0, hcor⟩ := rpcInit_valid he hv
  have hcf := correlate_fields s1 p
  rw [hcor] at hcf
  obtain ⟨hf1, hf2, hf3, hf4, hf5, hf6, hf7, hf8, hf9, hf10, hf11⟩ := hcf
  have hbo := rpc_body_ok hb h0rpc hrs has hrj hau hpr hve hpc
  have ht1 : s1.type = some CALL := hf2 ▸ ht
  obtain ⟨pr2, ve2, pc2, c, _, _, _, hcc, hcver, _⟩ := hbo.2.1 ht1 h1rpc
  refine ⟨c, ?_, ?_⟩
  · rw [hf5, hcc]
  · intro hfl hnone
    exact hcver hfl (hf10.mp hnone)

/-- C7: a valid REPLY whose xid has no recorded call is left with program,
version and procedure absent, and the payload dispatcher returns no
payload without raising, leaving the object unchanged. -/
theorem C7_unseen_xid (p : Pktt) (data : List Nat) (proto : Nat)
    (codec : NfsEntry → List Nat → Except Unit Nat)
    (hv : (rpcInit p data proto).1.rpc = true)
    (ht : (rpcInit p data proto).1.type = some REPLY)
    (hun : ∀ x, (rpcInit p data proto).1.xid = some x →
      ∀ e, lookupX p.rpc_xid_map x = some e → e.program = none) :
    (rpcInit p data proto).1.program = none ∧
    (rpcInit p data proto).1.version = none ∧
    (rpcInit p data proto).1.procedure = none ∧
    decode_nfs codec (rpcInit p data proto).1 =
      (none, (rpcInit p data proto).1) := by
  have he : rpcInit p data proto =
      ((rpcInit p data proto).1, (rpcInit p data proto).2) := rfl
  obtain ⟨s0, s1, hb, h1rpc, h0rpc, hrs, has, hrj, hau, hpr, hve, hpc, hcr0,
    hver0, hci, hx0, ht0, hcor⟩ := rpcInit_valid he hv
  have hcf := correlate_fields s1 p
  rw [hcor] at hcf
  obtain ⟨hf1, hf2, hf3, hf4, hf5, hf6, hf7, hf8, hf9, hf10, hf11⟩ := hcf
  have hbo := rpc_body_ok hb h0rpc hrs has hrj hau hpr hve hpc
  have ht1 : s1.type = some REPLY := hf2 ▸ ht
  obtain ⟨hx1, -, -, -, -, -⟩ := hbo.1 h1rpc
  obtain ⟨hs1pr, hs1ve, hs1pc⟩ := hbo.2.2 ht1
  obtain ⟨x, hx⟩ := hx1
  have hnp := correlate_reply_noprog hx ht1
    (fun e hle => hun x (by rw [hf3]; exact hx) e hle)
  have hr1 : (rpcInit p data proto).1 = s1 := by
    have := congrArg Prod.fst hcor
    rw [← this, hnp]
  refine ⟨?_, ?_, ?_, ?_⟩
  · rw [hr1]; exact hs1pr
  · rw [hr1]; exact hs1ve
  · rw [hr1]; exact hs1pc
  · rw [hr1]; exact decode_nfs_noprog hs1pr

/-- The REPLY side of the correlation block copies the four call fields
onto the reply regardless of the stored flavor or the reply's verifier. -/
lemma correlate_reply_copy {s : RPCState} {p : Pktt} {x pr ve pc ci fl : Nat}
    {e : XidEntry}
    (hx : s.xid = some x) (ht : s.type = some REPLY)
    (hl : lookupX p.rpc_xid_map x = some e)
    (hepr : e.program = some pr) (heve : e.version = some ve)
    (hepc : e.procedure = some pc) (heci : e.call_index = some ci)
    (hefl : e.flavor = some fl) :
    (correlate s p).1.program = some pr ∧ (correlate s p).1.version = some ve ∧
    (correlate s p).1.procedure = some pc ∧
    (correlate s p).1.call_index = some ci := by
  obtain ⟨sd, srpc, sfh, sxid, sty, srv, sprog, sver, sproc, scred, sverif,
    srs, sas, srj, sau, spm, srm, sci⟩ := s
  obtain ⟨epr, eve, epc, eci, efl, egp, egs, egv, eri⟩ := e
  simp only [] at hx ht hepr heve hepc heci hefl
  subst hx; subst ht; subst hepr; subst heve; subst hepc; subst heci; subst hefl
  unfold correlate
  simp only []
  rw [hl]
  simp only [Option.isNone_some, Bool.false_eq_true, if_false, Option.getD_some]
  repeat' split
  all_goals simp_all [CALL, REPLY, lookupX_insertX]

/-- C6 (amended): a valid CALL followed by a valid REPLY with the same xid
leaves the reply carrying the call's program, version and procedure and
the call's capture index; when the call's credential flavor was RPCSEC_GSS
and the reply carries a verifier, the stored gss attributes are copied
onto that verifier and the entry's reply_index is set to the reply's
capture index; when the flavor was not RPCSEC_GSS the reply_index is set
unconditionally.  (The claim's unconditional reply_index/gss copy fails
when a GSS call is answered by a reply without a verifier: the copy raises
and reply_index is never set — see the counterexample.) -/
theorem C6_call_reply_correlation
    (pa : Pktt) (d1 : List Nat) (tr1 : Nat) (s1 : RPCState) (p1 : Pktt)
    (idx2 : Nat) (d2 : List Nat) (tr2 : Nat) (s2 : RPCState) (p2 : Pktt)
    (h1 : rpcInit pa d1 tr1 = (s1, p1))
    (h2 : rpcInit {p1 with index := idx2} d2 tr2 = (s2, p2))
    (hv1 : s1.rpc = true) (ht1 : s1.type = some CALL)
    (hv2 : s2.rpc = true) (ht2 : s2.type = some REPLY)
    (hx : s2.xid = s1.xid) :
    (s1.program ≠ none ∧ s2.program = s1.program) ∧
    s2.version = s1.version ∧ s2.procedure = s1.procedure ∧
    s2.call_index = some pa.index ∧
    (∀ x c, s1.xid = some x → s1.credential = some c →
      (c.flavor ≠ RPCSEC_GSS →
        ∃ e2, lookupX p2.rpc_xid_map x = some e2 ∧
          e2.reply_index = some idx2) ∧
      (c.flavor = RPCSEC_GSS → ∀ v, s2.verifier = some v →
        v.gss_proc = c.gss_proc ∧ v.gss_service = c.gss_service ∧
        v.gss_version = c.gss_version ∧
        ∃ e2, lookupX p2.rpc_xid_map x = some e2 ∧
          e2.reply_index = some idx2)) := by
  -- call side
  obtain ⟨s0a, s1a, hba, hrpca, h0a, hrsa, hasa, hrja, haua, hpra, hvea,
    hpca, hcra, hvra, hcia, hxa, hta, hcora⟩ := rpcInit_valid h1 hv1
  have hcfa := correlate_fields s1a pa
  rw [hcora] at hcfa
  dsimp only at hcfa
  obtain ⟨ha1, ha2, ha3, ha4, ha5, ha6, ha7, ha8, ha9, ha10, ha11⟩ := hcfa
  have hboa := rpc_body_ok hba h0a hrsa hasa hrja haua hpra hvea hpca
  have ht1a : s1a.type = some CALL := ha2 ▸ ht1
  have hrpc1a : s1a.rpc = true := ha1 ▸ hv1
  obtain ⟨pr, ve, pc, c0, hapr, havr, hapc, hacc, -, hagss⟩ :=
    hboa.2.1 ht1a hrpc1a
  obtain ⟨x0, hx0a⟩ := (hboa.1 hrpc1a).1
  have hst := correlate_call_store (p := pa) hx0a ht1a hapr havr hapc hacc
  have hs1 : s1 = s1a := by
    have hfst := congrArg Prod.fst hcora
    dsimp only at hfst
    rw [← hfst, hst.1]
  obtain ⟨e, hle, hepr, heve, hepc, heci, hefl⟩ := hst.2.2
  rw [congrArg Prod.snd hcora] at hle
  dsimp only at hle
  -- reply side
  obtain ⟨s0b, s1b, hbb, hrpcb, h0b, hrsb, hasb, hrjb, haub, hprb, hveb,
    hpcb, hcrb, hvrb, hcib, hxb, htb, hcorb⟩ := rpcInit_valid h2 hv2
  have hcfb := correlate_fields s1b {p1 with index := idx2}
  rw [hcorb] at hcfb
  dsimp only at hcfb
  obtain ⟨hb1, hb2, hb3, hb4, hb5, hb6, hb7, hb8, hb9, hb10, hb11⟩ := hcfb
  have ht1b : s1b.type = some REPLY := hb2 ▸ ht2
  have hxb2 : s1b.xid = some x0 := by
    rw [← hb3, hx, hs1, hx0a]
  have hlb : lookupX ({p1 with index := idx2} : Pktt).rpc_xid_map x0 = some e := hle
  have hcopy := correlate_reply_copy (p := {p1 with index := idx2})
    hxb2 ht1b hlb hepr heve hepc heci hefl
  rw [hcorb] at hcopy
  dsimp only at hcopy
  have hs2p : s2.program = some pr := hcopy.1
  have hs2v : s2.version = some ve := hcopy.2.1
  have hs2c : s2.procedure = some pc := hcopy.2.2.1
  have hs2i : s2.call_index = some pa.index := hcopy.2.2.2
  refine ⟨⟨?_, ?_⟩, ?_, ?_, hs2i, ?_⟩
  · rw [hs1, hapr]; simp
  · rw [hs2p, hs1, hapr]
  · rw [hs2v, hs1, havr]
  · rw [hs2c, hs1, hapc]
  · intro x c hx1 hc1
    rw [hs1] at hx1 hc1
    rw [hx0a] at hx1
    rw [hacc] at hc1
    obtain rfl : x0 = x := by injection hx1
    obtain rfl : c0 = c := by injection hc1
    constructor
    · intro hnf
      have hpl := correlate_reply_plain (p := {p1 with index := idx2})
        hxb2 ht1b hlb hepr heve hepc heci hefl hnf
      rw [hcorb] at hpl
      dsimp only at hpl
      exact ⟨_, hpl.2.2.2.2.2, rfl⟩
    · intro hf v hv
      obtain ⟨hgp', hgs', hgv'⟩ := hagss hf
      obtain ⟨gp, hgp⟩ := Option.ne_none_iff_exists'.mp hgp'
      obtain ⟨gs, hgs⟩ := Option.ne_none_iff_exists'.mp hgs'
      obtain ⟨gv, hgv⟩ := Option.ne_none_iff_exists'.mp hgv'
      obtain ⟨e', hle', hepr', heve', hepc', heci', hefl', hegp', hegs', hegv'⟩ :=
        correlate_call_gss (p := pa) hx0a ht1a hapr havr hapc hacc hf hgp hgs hgv
      rw [congrArg Prod.snd hcora] at hle'
      dsimp only at hle'
      obtain rfl : e = e' := by
        have := hle.symm.trans hle'
        injection this
      rcases hvb : s1b.verifier with _ | v0
      · exfalso
        have : s2.verifier = none := hb10.mpr hvb
        rw [this] at hv
        cases hv
      · have hgssr := correlate_reply_gss (p := {p1 with index := idx2})
          hxb2 ht1b hlb hepr' heve' hepc' heci' hefl' hegp' hegs' hegv' hvb
        rw [hcorb] at hgssr
        dsimp only at hgssr
        obtain ⟨-, -, -, -, ⟨v1, hv1', hv1p, hv1s, hv1v⟩, hlkr⟩ := hgssr
        obtain rfl : v1 = v := by
          have := hv1'.symm.trans hv
          injection this
        exact ⟨hv1p.trans hgp.symm, hv1s.trans hgs.symm, hv1v.trans hgv.symm,
          _, hlkr, rfl⟩

set_option maxRecDepth 8000 in
set_option maxHeartbeats 1000000 in
/-- C2: on three record-marked fragments (last=0,len=4,"AAAA"),
(last=0,len=4,"BBBB"), (last=1,len=4,"CCCC") the loop slices with the
cumulative `fragment_hdr.size` (declared length + accumulated bytes), so
the second iteration grabs "BBBB" plus the third record header, the third
header is read from "CCCC", and the reassembled message is "AAAABBBB"
followed by the raw third header — not the concatenation "AAAABBBBCCCC"
of the fragment payloads.  The two-fragment case and the size-zero
"no message" case behave as the claim states. -/
theorem C2_three_fragments :
    tcp_loop [] c2Bytes none =
      TcpRes.cont [65, 65, 65, 65, 66, 66, 66, 66, 128, 0, 0, 4] (1128481615, 0) ∧
    [65, 65, 65, 65, 66, 66, 66, 66, 128, 0, 0, 4] ≠
      [65, 65, 65, 65, 66, 66, 66, 66, 67, 67, 67, 67] ∧
    tcp_loop [] [0, 0, 0, 4, 65, 65, 65, 65, 128, 0, 0, 4, 66, 66, 66, 66] none =
      TcpRes.cont [65, 65, 65, 65, 66, 66, 66, 66] (8, 1) ∧
    tcp_loop [] [0, 0, 0, 0] none = TcpRes.noMsg [] (0, 0) := by
  refine ⟨?_, by decide, ?_, ?_⟩ <;>
    simp [tcp_loop, c2Bytes, unpack_uintE, unpackE, rawdata, beVal]

/-- C3 counterexample: the verifier fails to decode (it is left `None`),
the credential flavor is 3, and the message is still reported as a valid
RPC message — the claim's "Abandoned for every credential flavor" fails. -/
theorem C3_counterexample :
    (rpcInit {index := 0} c3Bytes 17).1.type = some CALL ∧
    (rpcInit {index := 0} c3Bytes 17).1.verifier = none ∧
    (rpcInit {index := 0} c3Bytes 17).1.credential =
      some {flavor := 3, size := some 0, data := some []} ∧
    (rpcInit {index := 0} c3Bytes 17).1.rpc = true := by decide

/-- Witness for `C3_call_verifier` at a concrete valid CALL. -/
theorem C3_call_verifier_witness :
    ∃ c, (rpcInit {index := 0} c3Bytes 17).1.credential = some c ∧
      ((c.flavor = 0 ∨ c.flavor = 1) →
        (rpcInit {index := 0} c3Bytes 17).1.verifier ≠ none) :=
  C3_call_verifier {index := 0} c3Bytes 17 (by decide) (by decide)

/-- Witness for `C5_discriminants` at a concrete valid denied reply. -/
theorem C5_discriminants_witness :
    ((rpcInit {index := 0} c5Bytes 17).1.type = some CALL ∨
     (rpcInit {index := 0} c5Bytes 17).1.type = some REPLY) ∧
    (∀ v, (rpcInit {index := 0} c5Bytes 17).1.reply_status = some v →
      reply_statKeys.contains v = true) ∧
    (∀ v, (rpcInit {index := 0} c5Bytes 17).1.accepted_status = some v →
      accept_statKeys.contains v = true) ∧
    (∀ v, (rpcInit {index := 0} c5Bytes 17).1.rejected_status = some v →
      reject_statKeys.contains v = true) ∧
    (∀ v, (rpcInit {index := 0} c5Bytes 17).1.auth_status = some v →
      auth_statKeys.contains v = true) :=
  C5_discriminants {index := 0} c5Bytes 17 (by decide)

/-- C6 counterexample: a valid RPCSEC_GSS CALL followed by a valid DENIED
reply with the same xid.  The reply has no verifier, so the attempted copy
of the gss attributes onto `self.verifier` raises inside the
`try/except: pass` block and the stored entry's `reply_index` is never
set, although the claim requires it to be the reply's capture index (2). -/
theorem C6_counterexample :
    (rpcInit {index := 1} c6CallBytes 17).1.rpc = true ∧
    (rpcInit {index := 1} c6CallBytes 17).1.type = some CALL ∧
    ((rpcInit {index := 1} c6CallBytes 17).1.credential.getD
      {flavor := 0}).flavor = RPCSEC_GSS ∧
    (rpcInit {(rpcInit {index := 1} c6CallBytes 17).2 with index := 2} c6ReplyBytes 17).1.rpc = true ∧
    (rpcInit {(rpcInit {index := 1} c6CallBytes 17).2 with index := 2} c6ReplyBytes 17).1.type = some REPLY ∧
    (rpcInit {(rpcInit {index := 1} c6CallBytes 17).2 with index := 2} c6ReplyBytes 17).1.xid =
      (rpcInit {index := 1} c6CallBytes 17).1.xid ∧
    (rpcInit {(rpcInit {index := 1} c6CallBytes 17).2 with index := 2} c6ReplyBytes 17).1.program = some 100003 ∧
    (rpcInit {(rpcInit {index := 1} c6CallBytes 17).2 with index := 2} c6ReplyBytes 17).1.verifier = none ∧
    (lookupX (rpcInit {(rpcInit {index := 1} c6CallBytes 17).2 with index := 2} c6ReplyBytes 17).2.rpc_xid_map
      4660).isSome = true ∧
    ((lookupX (rpcInit {(rpcInit {index := 1} c6CallBytes 17).2 with index := 2} c6ReplyBytes 17).2.rpc_xid_map
      4660).getD {}).reply_index = none := by decide

/-- Witness for `C6_call_reply_correlation`: an AUTH_NONE call at capture
index 3 answered at capture index 9. -/
theorem C6_call_reply_correlation_witness :
    (rpcInit {(rpcInit {index := 3} c6wCallBytes 17).2 with index := 9} c6wReplyBytes 17).1.call_index = some 3 ∧
    ∃ e2, lookupX (rpcInit {(rpcInit {index := 3} c6wCallBytes 17).2 with index := 9} c6wReplyBytes 17).2.rpc_xid_map
        7 = some e2 ∧ e2.reply_index = some 9 := by
  have h := C6_call_reply_correlation {index := 3} c6wCallBytes 17
      (rpcInit {index := 3} c6wCallBytes 17).1
      (rpcInit {index := 3} c6wCallBytes 17).2 9 c6wReplyBytes 17
      (rpcInit {(rpcInit {index := 3} c6wCallBytes 17).2 with index := 9} c6wReplyBytes 17).1
      (rpcInit {(rpcInit {index := 3} c6wCallBytes 17).2 with index := 9} c6wReplyBytes 17).2
      rfl rfl (by decide) (by decide) (by decide) (by decide) (by decide)
  refine ⟨h.2.2.2.1, ?_⟩
  exact (h.2.2.2.2 7 {flavor := 0, size := some 0, data := some []}
    (by decide) (by decide)).1 (by decide)

/-- Witness for `C7_unseen_xid` on a fresh capture (empty xid map). -/
theorem C7_unseen_xid_witness :
    (rpcInit {index := 0} c7Bytes 17).1.program = none ∧
    (rpcInit {index := 0} c7Bytes 17).1.version = none ∧
    (rpcInit {index := 0} c7Bytes 17).1.procedure = none ∧
    decode_nfs (fun _ _ => Except.ok 0) (rpcInit {index := 0} c7Bytes 17).1 =
      (none, (rpcInit {index := 0} c7Bytes 17).1) :=
  C7_unseen_xid {index := 0} c7Bytes 17 (fun _ _ => Except.ok 0)
    (by decide) (by decide)
    (by intro x hx e he; simp [lookupX] at he)

/-- Witness for `C8_dispatch` at concrete states: the NFS call selects
COMPOUND4args, the transient-range reply selects CB_COMPOUND4res, and the
unrelated program yields no payload with nothing consumed. -/
theorem C8_dispatch_witness :
    decode_nfs (fun _ _ => Except.ok 1) c8State =
      (some (nfs_entry_of 0 false), {c8State with data := c8State.data.drop 1}) ∧
    decode_nfs (fun _ _ => Except.ok 1) c8StateCb =
      (some (nfs_entry_of 1 true), {c8StateCb with data := c8StateCb.data.drop 1}) ∧
    decode_nfs (fun _ _ => Except.ok 1) c8StateOther = (none, c8StateOther) := by
  refine ⟨?_, ?_, ?_⟩
  · exact C8_dispatch.2.2.2 c8State _ 100003 false 0 1 rfl (by decide) rfl rfl
      rfl (by decide) rfl
  · exact C8_dispatch.2.2.2 c8StateCb _ 0x50000001 true 1 1 rfl (by decide) rfl
      rfl rfl (by decide) rfl
  · exact C8_dispatch.2.2.1 17 (by decide) c8StateOther _ rfl

/-- Witness for `C9_error_isolation`: an empty buffer raises inside the
header decode (caught, object not-RPC), and an always-failing codec is
caught by `decode_nfs`. -/
theorem C9_error_isolation_witness :
    rpcInit {index := 0} [] 17 = (initState [], {index := 0}) ∧
    (initState []).rpc = false ∧
    decode_nfs (fun _ _ => Except.error ()) (initState []) =
      (none, initState []) := by
  have h1 := C9_error_isolation.1 {index := 0} [] 17 (initState [])
    {index := 0} (by decide)
  exact ⟨h1.1, h1.2, C9_error_isolation.2 (initState []) _ (fun e d => rfl)⟩

/-- Witness for `C10_null_payloads`. -/
theorem C10_null_payloads_witness :
    decode_nfs (fun _ _ => Except.ok 0) c10State = (none, c10State) :=
  C10_null_payloads c10State _ 100003 4 0 rfl rfl (Or.inl rfl) rfl rfl
    (Or.inl rfl)
